import Mathlib

set_option maxRecDepth 8000

/-!
Verification development for the FlyingAdcBms-VX1 display/CAN glue layer.

The definitions below are a shallow embedding of `src/src/vx1.cpp` and of the
parameter table in `src/include/param_prj.h`.  C strings are modelled as lists
of byte values (`List Nat`), machine integers as `Nat`/`Int` with explicit
`% 2^32` / `% 2^8` where overflow or casts matter, and CAN transmission as the
list of frames a call hands to `CanHardware::Send`.  Reads of the parameter
store (`Param::GetInt`/`GetFloat`) are modelled as fields of an `Env` record,
since within one call of the embedded functions the store is not mutated.
Float-valued computations (energy/SoC estimation and the stats display texts
of the boot sequence) are outside the shallow embedding; where a function only
passes such a value through as display text, the text is taken as a parameter.
-/

/-- A CAN frame as handed to `CanHardware::Send(id, data, len)`: a 29-bit
extended identifier and the 8 payload bytes. -/
structure Frame where
  id : Nat
  data : List Nat
deriving DecidableEq

/-- Priority bits 28:26 of a 29-bit extended J1939 CAN identifier. -/
def j1939Priority (id : Nat) : Nat := (id >>> 26) % 8

/-- `#define VX1_ODOMETER_PGN 0x00FEED` (vx1.cpp:94). -/
def VX1_ODOMETER_PGN : Nat := 0x00FEED
/-- `#define VX1_OVERRIDE_NORMAL 0x55` (vx1.cpp:95). -/
def VX1_OVERRIDE_NORMAL : Nat := 0x55
/-- `#define VX1_OVERRIDE_FORCE 0xAA` (vx1.cpp:96). -/
def VX1_OVERRIDE_FORCE : Nat := 0xAA
/-- `#define VX1_TELLTALE_PGN 0x00FECA` (vx1.cpp:99). -/
def VX1_TELLTALE_PGN : Nat := 0x00FECA
/-- `#define VX1_CLOCK_PGN 0x00FEEC` (vx1.cpp:102). -/
def VX1_CLOCK_PGN : Nat := 0x00FEEC
/-- `#define VX1_BMS_STATUS_PGN 0x00FEF2` (vx1.cpp:110). -/
def VX1_BMS_STATUS_PGN : Nat := 0x00FEF2
/-- `#define VX1_BMS_VOLTTEMP_PGN 0x00FEF3` (vx1.cpp:111). -/
def VX1_BMS_VOLTTEMP_PGN : Nat := 0x00FEF3
/-- `#define VX1_BMS_FAULTS_PGN 0x00FEF4` (vx1.cpp:112). -/
def VX1_BMS_FAULTS_PGN : Nat := 0x00FEF4
/-- `#define VX1_BMS_SA 0x40` (vx1.cpp:113). -/
def VX1_BMS_SA : Nat := 0x40

/-- `VX1::TelltaleState` (vx1.h): OFF, ON, BLINKING. -/
inductive TelltaleState
  | OFF
  | ON
  | BLINKING
deriving DecidableEq

/-- `VX1::TelltaleType` (vx1.h): WRENCH, TEMP, BATTERY. -/
inductive TelltaleType
  | WRENCH
  | TEMP
  | BATTERY
deriving DecidableEq

/-- The error codes named in `VX1::ERROR_SHORT_CODES` (vx1.cpp:44-50) plus
`ERROR_NONE`.  `errormessage_prj.h` is not among the excerpted sources; per the
comments in vx1.cpp the named codes are 1..4 and further codes exist, which the
catch-all constructor `ERR_OTHER` stands for. -/
inductive ErrorMessageNum
  | ERROR_NONE
  | ERR_MUXSHORT
  | ERR_BALANCER_FAIL
  | ERR_CELL_POLARITY
  | ERR_CELL_OVERVOLTAGE
  | ERR_OTHER (code : Nat)
deriving DecidableEq

/-- `VX1::ERROR_SHORT_CODES` (vx1.cpp:44-50): error-code/short-code pairs. -/
def ERROR_SHORT_CODES : List (ErrorMessageNum × String) :=
  [(ErrorMessageNum.ERR_MUXSHORT, "MSH"),
   (ErrorMessageNum.ERR_BALANCER_FAIL, "BAL"),
   (ErrorMessageNum.ERR_CELL_POLARITY, "CPOL"),
   (ErrorMessageNum.ERR_CELL_OVERVOLTAGE, "COV")]

/-- The short-code lookup loop used by `ReportError` and `ErrorReportingTask`
(vx1.cpp:1589-1595): first matching table entry, defaulting to "ERR". -/
def lookupShortCode (err : ErrorMessageNum) : String :=
  match ERROR_SHORT_CODES.find? (fun p => p.1 == err) with
  | some p => p.2
  | none => "ERR"

/-- Bytes of a Lean string literal (all our literals are ASCII). -/
def strBytes (s : String) : List Nat := s.toList.map Char.toNat

/-- The static class members of `VX1` (vx1.cpp:52-79) that the embedded
functions read or write.  Float-valued statics (`currentTempWarning`,
`currentUDeltaWarning`, the vehicle-data and energy accumulators) are not
modelled; no embedded claim depends on them. -/
structure VX1State where
  odometerMessage : List Nat
  displayActive : Bool
  wrenchState : TelltaleState
  tempState : TelltaleState
  batteryState : TelltaleState
  telltaleActive : Bool
  lastTelltaleUpdateTime : Nat
  clockSegments : List Nat
  clockChargerIndicator : Nat
  clockActive : Bool
  errorActive : Bool
  currentError : ErrorMessageNum
  errorNodeId : Nat
  tempWarningActive : Bool
  uDeltaWarningActive : Bool
deriving DecidableEq

/-- The static initializers of the `VX1` class members (vx1.cpp:52-79). -/
def initialVX1State : VX1State :=
  { odometerMessage := [32, 32, 32, 32, 32, 32, 0]
    displayActive := false
    wrenchState := TelltaleState.OFF
    tempState := TelltaleState.OFF
    batteryState := TelltaleState.OFF
    telltaleActive := false
    lastTelltaleUpdateTime := 0
    clockSegments := [32, 32, 32, 32, 0]
    clockChargerIndicator := 0
    clockActive := false
    errorActive := false
    currentError := ErrorMessageNum.ERROR_NONE
    errorNodeId := 0
    tempWarningActive := false
    uDeltaWarningActive := false }

/-- The read-only context of one call: the parameter-store values the code
reads via `Param::GetInt`, and whether the `CanHardware*` argument is
non-null.  `uptime` is the `Param::uptime` counter (a uint32 spot value). -/
structure Env where
  canHw : Bool
  VX1mode : Int
  VX1enCanMsg : Int
  VX1ErrWarn : Int
  VX1BootLCDMsg : Int
  VX1enBootstats : Int
  VX1msgInterval : Nat
  uptime : Nat
  modaddr : Int
deriving DecidableEq

/-- `VX1::IsEnabled` (vx1.cpp:200-203): `Param::GetInt(Param::VX1mode) == 1`. -/
def isEnabled (e : Env) : Bool := e.VX1mode == 1

/-- `CanHardware::baudrates` values used by `VX1::GetCanBaudRate`. -/
inductive Baudrate
  | Baud250
  | Baud500
deriving DecidableEq

/-- `VX1::GetCanBaudRate` (vx1.cpp:210-213):
`IsEnabled() ? Baud250 : Baud500`. -/
def getCanBaudRate (e : Env) : Baudrate :=
  if isEnabled e then Baudrate.Baud250 else Baudrate.Baud500

/-- `VX1::IsMaster(BmsFsm*)` (vx1.cpp:221-231).  A non-null `BmsFsm*` is
modelled as `some b` where `b` is the value the instance's `IsFirst()` call
returns (the `BmsFsm` class itself is not among the excerpted sources); a null
pointer is `none`, in which case the fallback `Param::GetInt(Param::modaddr)
== 10` decides. -/
def isMaster (e : Env) (bmsFsmIsFirst : Option Bool) : Bool :=
  match bmsFsmIsFirst with
  | some b => b
  | none => e.modaddr == 10

/-- `strlen` on a modelled C string: number of bytes before the first NUL. -/
def strlenC (msg : List Nat) : Nat := (msg.takeWhile (fun b => b != 0)).length

/-- `VX1::SetOdometerMessage` (vx1.cpp:333-347): `len = min(strlen(message),
6)`; the 6-byte buffer is filled with spaces, the first `len` bytes are copied
from the input, and a NUL is kept at index 6; `displayActive` is set. -/
def setOdometerMessage (st : VX1State) (message : List Nat) : VX1State :=
  let len := min (strlenC message) 6
  { st with
    odometerMessage := message.take len ++ (List.replicate 6 32).drop len ++ [0]
    displayActive := true }

/-- `VX1::CharToSegment` (vx1.cpp:253-326): ASCII byte to 7-segment code. -/
def charToSegment (ch : Nat) : Nat :=
  match ch with
  | 0x30 => 0x3F -- '0'
  | 0x31 => 0x06 -- '1'
  | 0x32 => 0x5B -- '2'
  | 0x33 => 0x4F -- '3'
  | 0x34 => 0x66 -- '4'
  | 0x35 => 0x6D -- '5'
  | 0x36 => 0x7D -- '6'
  | 0x37 => 0x07 -- '7'
  | 0x38 => 0x7F -- '8'
  | 0x39 => 0x6F -- '9'
  | 0x41 => 0x77 -- 'A'
  | 0x42 => 0x7C -- 'B'
  | 0x43 => 0x39 -- 'C'
  | 0x44 => 0x5E -- 'D'
  | 0x45 => 0x79 -- 'E'
  | 0x46 => 0x71 -- 'F'
  | 0x47 => 0x3D -- 'G'
  | 0x48 => 0x76 -- 'H'
  | 0x49 => 0x06 -- 'I'
  | 0x4A => 0x1E -- 'J'
  | 0x4C => 0x38 -- 'L'
  | 0x4D => 0x37 -- 'M'
  | 0x4E => 0x54 -- 'N'
  | 0x4F => 0x3F -- 'O'
  | 0x50 => 0x73 -- 'P'
  | 0x51 => 0x67 -- 'Q'
  | 0x52 => 0x50 -- 'R'
  | 0x53 => 0x6D -- 'S'
  | 0x54 => 0x78 -- 'T'
  | 0x55 => 0x3E -- 'U'
  | 0x56 => 0x3E -- 'V'
  | 0x57 => 0x7E -- 'W'
  | 0x58 => 0x76 -- 'X'
  | 0x59 => 0x6E -- 'Y'
  | 0x5A => 0x5B -- 'Z'
  | 0x61 => 0x5F -- 'a'
  | 0x62 => 0x7C -- 'b'
  | 0x63 => 0x58 -- 'c'
  | 0x64 => 0x5E -- 'd'
  | 0x65 => 0x7B -- 'e'
  | 0x66 => 0x71 -- 'f'
  | 0x67 => 0x6F -- 'g'
  | 0x68 => 0x74 -- 'h'
  | 0x69 => 0x04 -- 'i'
  | 0x6A => 0x0E -- 'j'
  | 0x6C => 0x30 -- 'l'
  | 0x6E => 0x54 -- 'n'
  | 0x6F => 0x5C -- 'o'
  | 0x71 => 0x67 -- 'q'
  | 0x72 => 0x50 -- 'r'
  | 0x73 => 0x6D -- 's'
  | 0x74 => 0x78 -- 't'
  | 0x75 => 0x1C -- 'u'
  | 0x79 => 0x6E -- 'y'
  | 0x2D => 0x40 -- '-'
  | 0x5F => 0x08 -- '_'
  | 0x3D => 0x48 -- '='
  | 0x20 => 0x00 -- ' '
  | 0x2E => 0x00 -- '.'
  | _ => 0x00

/-- The 29-bit identifier `(3 << 26) | (VX1_ODOMETER_PGN << 8) |
sourceAddress` built by `VX1::SendOdometerMessage` (vx1.cpp:392). -/
def odometerJ1939Id (sourceAddress : Nat) : Nat :=
  (3 <<< 26) ||| (VX1_ODOMETER_PGN <<< 8) ||| sourceAddress

/-- `VX1::SendOdometerMessage` (vx1.cpp:357-398).  Returns the new statics,
the frame handed to `CanHardware::Send` (if any), and the C++ return value. -/
def sendOdometerMessage (st : VX1State) (e : Env) (message : Option (List Nat))
    (sourceAddress : Nat) (masterOnly : Bool) : VX1State × Option Frame × Bool :=
  if !isEnabled e || !e.canHw || e.VX1enCanMsg != 1 then (st, none, false)
  else if masterOnly && !isMaster e none then (st, none, false)
  else
    let st1 := match message with
      | some m => setOdometerMessage st m
      | none => st
    let om := st1.odometerMessage
    let bytes := [charToSegment (om.getD 5 0), charToSegment (om.getD 4 0),
                  charToSegment (om.getD 3 0), charToSegment (om.getD 2 0),
                  charToSegment (om.getD 1 0), charToSegment (om.getD 0 0),
                  0x00, VX1_OVERRIDE_FORCE]
    (st1, some { id := odometerJ1939Id sourceAddress, data := bytes }, true)

/-- `VX1::SetTelltaleState` (vx1.cpp:444-460). -/
def setTelltaleState (st : VX1State) (type : TelltaleType)
    (state : TelltaleState) : VX1State :=
  let st1 := match type with
    | TelltaleType.WRENCH => { st with wrenchState := state }
    | TelltaleType.TEMP => { st with tempState := state }
    | TelltaleType.BATTERY => { st with batteryState := state }
  { st1 with telltaleActive := true }

/-- Reduction of a value modulo 2^32 (uint32_t). -/
def u32 (n : Nat) : Nat := n % 4294967296

/-- uint32_t subtraction `a - b` with wraparound. -/
def u32sub (a b : Nat) : Nat := (u32 a + 4294967296 - u32 b) % 4294967296

/-- Byte 0 of the telltale frame as built by `VX1::SendTelltaleControl`
(vx1.cpp:1455-1491): the three `|=` switch blocks on wrench, temperature
and battery state. -/
def telltaleData0 (w t b : TelltaleState) : Nat :=
  (match w with
   | TelltaleState.ON => 0x01
   | TelltaleState.BLINKING => 0x02
   | TelltaleState.OFF => 0) |||
  (match t with
   | TelltaleState.ON => 0x10
   | TelltaleState.BLINKING => 0x20
   | TelltaleState.OFF => 0) |||
  (match b with
   | TelltaleState.ON => 0x04
   | TelltaleState.BLINKING => 0x08
   | TelltaleState.OFF => 0)

/-- `VX1::SendTelltaleControl` (vx1.cpp:1417-1497).  The telltale frame uses
the fixed identifier `msg.id = 0x18FECA4C` (vx1.cpp:1452); bytes 4 and 6 are
set when the battery telltale is BLINKING (vx1.cpp:1486-1487). -/
def sendTelltaleControl (st : VX1State) (e : Env) (masterOnly : Bool) :
    VX1State × Option Frame × Bool :=
  if !isEnabled e || !e.canHw || e.VX1enCanMsg != 1 then (st, none, false)
  else
    let currentTime := u32 e.uptime
    if st.lastTelltaleUpdateTime > 0 &&
        u32sub currentTime st.lastTelltaleUpdateTime < 3000 then
      (st, none, true)
    else
      let st1 := { st with lastTelltaleUpdateTime := currentTime }
      if masterOnly && !isMaster e none then (st1, none, false)
      else
        let data0 := telltaleData0 st1.wrenchState st1.tempState st1.batteryState
        let data4 := if st1.batteryState = TelltaleState.BLINKING then 0x33 else 0
        let data6 := if st1.batteryState = TelltaleState.BLINKING then 0x32 else 0
        (st1, some { id := 0x18FECA4C, data := [data0, 0, 0, 0, data4, 0, data6, 0] },
         true)

/-- `VX1::SetClockDisplay` (vx1.cpp:489-502). -/
def setClockDisplay (st : VX1State) (segment1 segment2 segment3 segment4
    chargerIndicator : Nat) : VX1State :=
  { st with
    clockSegments := [segment1, segment2, segment3, segment4, 0]
    clockChargerIndicator := chargerIndicator
    clockActive := true }

/-- The per-character switch of `VX1::SendClockMessage` (vx1.cpp:541-561). -/
def clockCharToSegment (ch : Nat) : Nat :=
  match ch with
  | 0x30 => 0x3F -- '0'
  | 0x31 => 0x06 -- '1'
  | 0x32 => 0x5B -- '2'
  | 0x33 => 0x4F -- '3'
  | 0x34 => 0x66 -- '4'
  | 0x35 => 0x6D -- '5'
  | 0x36 => 0x7D -- '6'
  | 0x37 => 0x07 -- '7'
  | 0x38 => 0x7F -- '8'
  | 0x39 => 0x6F -- '9'
  | 0x2B => 0x70 -- '+'
  | 0x2D => 0x40 -- '-'
  | 0x2E => 0x80 -- '.'
  | 0x20 => 0x00 -- ' '
  | 0x25 => 0x63 -- '%'
  | _ => 0x00

/-- The 29-bit identifier `(3 << 26) | (VX1_CLOCK_PGN << 8) | sourceAddress`
built by `VX1::SendClockMessage` (vx1.cpp:576). -/
def clockJ1939Id (sourceAddress : Nat) : Nat :=
  (3 <<< 26) ||| (VX1_CLOCK_PGN <<< 8) ||| sourceAddress

/-- `VX1::SendClockMessage` (vx1.cpp:513-582). -/
def sendClockMessage (st : VX1State) (e : Env) (sourceAddress : Nat)
    (masterOnly over : Bool) : VX1State × Option Frame × Bool :=
  if !isEnabled e || !e.canHw || e.VX1enCanMsg != 1 then (st, none, false)
  else if masterOnly && !isMaster e none then (st, none, false)
  else
    let seg := st.clockSegments
    let data := [clockCharToSegment (seg.getD 0 0), clockCharToSegment (seg.getD 1 0),
                 clockCharToSegment (seg.getD 2 0), clockCharToSegment (seg.getD 3 0),
                 0x00, 0x00, st.clockChargerIndicator,
                 if over then VX1_OVERRIDE_FORCE else VX1_OVERRIDE_NORMAL]
    (st, some { id := clockJ1939Id sourceAddress, data := data }, true)

/-- The 29-bit identifier `(3 << 26) | (VX1_BMS_STATUS_PGN << 8) | VX1_BMS_SA`
built by `VX1::SendBmsPgn0xFEF2` (vx1.cpp:2221).  The float-valued payload of
that message is outside the shallow embedding. -/
def bmsPgn0xFEF2_j1939Id : Nat :=
  (3 <<< 26) ||| (VX1_BMS_STATUS_PGN <<< 8) ||| VX1_BMS_SA

/-- The 29-bit identifier `(3 << 26) | (VX1_BMS_VOLTTEMP_PGN << 8) |
VX1_BMS_SA` built by `VX1::SendBmsPgn0xFEF3` (vx1.cpp:2309). -/
def bmsPgn0xFEF3_j1939Id : Nat :=
  (3 <<< 26) ||| (VX1_BMS_VOLTTEMP_PGN <<< 8) ||| VX1_BMS_SA

/-- The 29-bit identifier `(3 << 26) | (VX1_BMS_FAULTS_PGN << 8) | VX1_BMS_SA`
built by `VX1::SendBmsPgn0xFEF4` (vx1.cpp:2435). -/
def bmsPgn0xFEF4_j1939Id : Nat :=
  (3 <<< 26) ||| (VX1_BMS_FAULTS_PGN <<< 8) ||| VX1_BMS_SA

/-- Decimal digit bytes of `n` (fuelled helper; `fuel` bounds the recursion). -/
def decDigitsAux (fuel n : Nat) : List Nat :=
  match fuel with
  | 0 => []
  | fuel + 1 =>
    if n < 10 then [48 + n]
    else decDigitsAux fuel (n / 10) ++ [48 + n % 10]

/-- Decimal digit bytes of a natural number. -/
def decDigits (n : Nat) : List Nat := decDigitsAux (n + 1) n

/-- `sprintf("%2d", n)`: decimal representation right-aligned in a field of
width 2 (wider numbers keep all their digits). -/
def fmtD2 (n : Nat) : List Nat :=
  let d := decDigits n
  if d.length < 2 then List.replicate (2 - d.length) 32 ++ d else d

/-- `sprintf(buf, "%2d %s", nodeId, shortCode)` as used by `ReportError`
(vx1.cpp:1534) and `ErrorReportingTask` (vx1.cpp:1599). -/
def errorMessageText (nodeId : Nat) (shortCode : String) : List Nat :=
  fmtD2 nodeId ++ [32] ++ strBytes shortCode

/-- uint8_t cast of an int value (`uint8_t nodeId = Param::GetInt(...)`). -/
def u8ofInt (i : Int) : Nat := (i % 256).toNat

/-- `VX1::ErrorReportingTask` (vx1.cpp:1546-1627).  `lastError` is the value
`ErrorMessage::GetLastError()` returns (the error register is a collaborator
outside the excerpted sources).  Returns the new statics and the frames sent,
in order. -/
def errorReportingTask (st : VX1State) (e : Env)
    (lastError : ErrorMessageNum) : VX1State × List Frame :=
  if !e.canHw then (st, [])
  else if !isEnabled e || e.VX1enCanMsg != 1 || e.VX1ErrWarn != 1 then (st, [])
  else
    let error := lastError
    if error != ErrorMessageNum.ERROR_NONE then
      let st1 :=
        if !st.errorActive || error != st.currentError then
          let nodeId := u8ofInt e.modaddr
          let sta := { st with errorActive := true, currentError := error,
                               errorNodeId := nodeId }
          let stb := setTelltaleState sta TelltaleType.BATTERY TelltaleState.BLINKING
          setTelltaleState stb TelltaleType.WRENCH TelltaleState.BLINKING
        else st
      let telltaleFrame : Frame :=
        { id := 0x18FECA4C, data := [0x0A, 0, 0, 0, 0x33, 0, 0x32, 0] }
      let shortCode := lookupShortCode st1.currentError
      let text := errorMessageText st1.errorNodeId shortCode
      let st2 := setOdometerMessage st1 text
      let r := sendOdometerMessage st2 e none 0xF9 false
      (r.1, telltaleFrame :: r.2.1.toList)
    else if st.errorActive then
      let st1 := { st with errorActive := false }
      let st2 := setTelltaleState st1 TelltaleType.BATTERY TelltaleState.OFF
      let st3 := setTelltaleState st2 TelltaleType.WRENCH TelltaleState.OFF
      let telltaleFrame : Frame :=
        { id := 0x18FECA4C, data := [0, 0, 0, 0, 0, 0, 0, 0] }
      if !st3.tempWarningActive && !st3.uDeltaWarningActive then
        let st4 := setOdometerMessage st3 (strBytes "      ")
        let r := sendOdometerMessage st4 e none 0xF9 false
        (r.1, telltaleFrame :: r.2.1.toList)
      else (st3, [telltaleFrame])
    else (st, [])

/-- `BootDisplayState` (vx1.cpp:147-159). -/
inductive BootDisplayState
  | BOOT_DISPLAY_IDLE
  | BOOT_DISPLAY_WAIT
  | BOOT_DISPLAY_OI_FLY
  | BOOT_DISPLAY_B_M_S
  | BOOT_DISPLAY_UTOTAL
  | BOOT_DISPLAY_UDELTA
  | BOOT_DISPLAY_SOC
  | BOOT_DISPLAY_SOH
  | BOOT_DISPLAY_TEMPMIN
  | BOOT_DISPLAY_TEMPMAX
  | BOOT_DISPLAY_DONE
deriving DecidableEq

/-- The file-static boot-display variables (vx1.cpp:161-165) together with the
`VX1` statics they act on.  `bootDisplayCanHardware` is covered by
`Env.canHw`; `bootDisplayStartTime` is written once and never read. -/
structure BootState where
  bootDisplayState : BootDisplayState
  bootDisplayTimer : Nat
  vx1 : VX1State
deriving DecidableEq

/-- One invocation of the scheduler task `BootDisplayTask` (vx1.cpp:605-995).
The display texts of the stats states (`UTOTAL` .. `TEMPMAX`) are computed in
the source from float-valued parameters and NVRAM reads; the embedding takes
them as the `statsMsg` argument (the claims proved below do not depend on
them).  Returns the new state and the frames sent, in order. -/
def bootDisplayTask (statsMsg : BootDisplayState → Env → List Nat) (e : Env)
    (s : BootState) : BootState × List Frame :=
  if s.bootDisplayState = BootDisplayState.BOOT_DISPLAY_IDLE ∨ !e.canHw ∨
      !isEnabled e ∨ e.VX1enCanMsg ≠ 1 then (s, [])
  else
    let msgInterval := e.VX1msgInterval
    let currentTime := s.bootDisplayTimer
    let timerInc := s.bootDisplayTimer + 1
    let waitIterations := 10000 / msgInterval
    let shortDisplayIterations := 2000 / msgInterval
    let longDisplayIterations := 5000 / msgInterval
    let rT := sendTelltaleControl s.vx1 e false
    let v0 := rT.1
    let frames0 := rT.2.1.toList
    -- a state that shows `msg` once on entry, re-sends every iteration and
    -- advances to `next` after `bound` iterations (the OI_FLY/B_M_S/stats
    -- pattern of the switch)
    let showStep := fun (msg : List Nat) (send0 : Bool) (bound : Nat)
        (next : BootDisplayState) =>
      let r1 := if send0 then
          let va := setOdometerMessage v0 msg
          let ra := sendOdometerMessage va e none 0xF9 false
          (ra.1, ra.2.1.toList)
        else (v0, ([] : List Frame))
      let r2 := sendOdometerMessage r1.1 e none 0xF9 false
      let st := if currentTime ≥ bound then
          { bootDisplayState := next, bootDisplayTimer := 0, vx1 := r2.1 }
        else
          { bootDisplayState := s.bootDisplayState, bootDisplayTimer := timerInc,
            vx1 := r2.1 }
      (st, frames0 ++ r1.2 ++ r2.2.1.toList)
    match s.bootDisplayState with
    | BootDisplayState.BOOT_DISPLAY_IDLE => (s, [])
    | BootDisplayState.BOOT_DISPLAY_WAIT =>
      if currentTime ≥ waitIterations then
        ({ bootDisplayState := BootDisplayState.BOOT_DISPLAY_OI_FLY,
           bootDisplayTimer := 0, vx1 := v0 }, frames0)
      else
        ({ bootDisplayState := BootDisplayState.BOOT_DISPLAY_WAIT,
           bootDisplayTimer := timerInc, vx1 := v0 }, frames0)
    | BootDisplayState.BOOT_DISPLAY_OI_FLY =>
      showStep (strBytes "OI FLY") (currentTime == 0) shortDisplayIterations
        BootDisplayState.BOOT_DISPLAY_B_M_S
    | BootDisplayState.BOOT_DISPLAY_B_M_S =>
      showStep (strBytes " BMMS ") (currentTime == 0) shortDisplayIterations
        (if e.VX1enBootstats == 1 then BootDisplayState.BOOT_DISPLAY_UTOTAL
         else BootDisplayState.BOOT_DISPLAY_DONE)
    | BootDisplayState.BOOT_DISPLAY_UTOTAL =>
      showStep (statsMsg BootDisplayState.BOOT_DISPLAY_UTOTAL e)
        (currentTime == 0) longDisplayIterations
        BootDisplayState.BOOT_DISPLAY_UDELTA
    | BootDisplayState.BOOT_DISPLAY_UDELTA =>
      showStep (statsMsg BootDisplayState.BOOT_DISPLAY_UDELTA e)
        (currentTime == 0) longDisplayIterations
        BootDisplayState.BOOT_DISPLAY_SOC
    | BootDisplayState.BOOT_DISPLAY_SOC =>
      showStep (statsMsg BootDisplayState.BOOT_DISPLAY_SOC e)
        (currentTime == 0 || currentTime % 5 == 0) longDisplayIterations
        BootDisplayState.BOOT_DISPLAY_SOH
    | BootDisplayState.BOOT_DISPLAY_SOH =>
      showStep (statsMsg BootDisplayState.BOOT_DISPLAY_SOH e)
        (currentTime == 0) longDisplayIterations
        BootDisplayState.BOOT_DISPLAY_TEMPMIN
    | BootDisplayState.BOOT_DISPLAY_TEMPMIN =>
      showStep (statsMsg BootDisplayState.BOOT_DISPLAY_TEMPMIN e)
        (currentTime == 0) longDisplayIterations
        BootDisplayState.BOOT_DISPLAY_TEMPMAX
    | BootDisplayState.BOOT_DISPLAY_TEMPMAX =>
      showStep (statsMsg BootDisplayState.BOOT_DISPLAY_TEMPMAX e)
        (currentTime == 0) longDisplayIterations
        BootDisplayState.BOOT_DISPLAY_DONE
    | BootDisplayState.BOOT_DISPLAY_DONE =>
      if currentTime < 20 then
        let va := setOdometerMessage v0 (strBytes "      ")
        let ra := sendOdometerMessage va e none 0xF9 false
        ({ bootDisplayState := BootDisplayState.BOOT_DISPLAY_DONE,
           bootDisplayTimer := timerInc, vx1 := ra.1 },
         frames0 ++ ra.2.1.toList)
      else if currentTime = 20 then
        let va := setTelltaleState v0 TelltaleType.BATTERY TelltaleState.OFF
        let rb := sendTelltaleControl va e false
        let vc := setOdometerMessage rb.1 (strBytes "      ")
        let rc := sendOdometerMessage vc e none 0xF9 false
        ({ bootDisplayState := BootDisplayState.BOOT_DISPLAY_DONE,
           bootDisplayTimer := timerInc, vx1 := rc.1 },
         frames0 ++ rb.2.1.toList ++ rc.2.1.toList)
      else
        ({ bootDisplayState := BootDisplayState.BOOT_DISPLAY_IDLE,
           bootDisplayTimer := timerInc, vx1 := v0 }, frames0)

/-- `n` successive invocations of `BootDisplayTask` under a fixed `Env`. -/
def bootDisplayStepN (statsMsg : BootDisplayState → Env → List Nat) (e : Env) :
    Nat → BootState → BootState
  | 0, s => s
  | n + 1, s => bootDisplayStepN statsMsg e n (bootDisplayTask statsMsg e s).1

/-- `VX1::DisplayBootWelcomeScreen` (vx1.cpp:1388-1407): under its gates it
re-initializes the sequence to `BOOT_DISPLAY_WAIT` with timer 0, turns the
battery telltale on and registers `BootDisplayTask` with the scheduler.
`scheduler` is whether the `Stm32Scheduler*` argument is non-null. -/
def displayBootWelcomeScreen (e : Env) (scheduler : Bool)
    (bmsFsmIsFirst : Option Bool) (s : BootState) : BootState :=
  if !isEnabled e || e.VX1BootLCDMsg != 1 || e.VX1enCanMsg != 1 ||
      !isMaster e bmsFsmIsFirst || !e.canHw || !scheduler then s
  else
    { bootDisplayState := BootDisplayState.BOOT_DISPLAY_WAIT,
      bootDisplayTimer := 0,
      vx1 := setTelltaleState s.vx1 TelltaleType.BATTERY TelltaleState.ON }

/-- `#define OPMODES ...` (param_prj.h:235), the unit string of the `opmode`
spot value, which names the encoding of the operating-mode parameter. -/
def OPMODES : String :=
  "0=Boot, 1=GetAddr, 2=SetAddr, 3=ReqInfo, 4=RecvInfo, 5=Init, 6=SelfTest, 7=Run, 8=Idle, 9=Error"

/-- Split a character list at every comma. -/
def splitByComma : List Char → List (List Char)
  | [] => [[]]
  | c :: cs =>
    let rest := splitByComma cs
    if c == ',' then [] :: rest
    else
      match rest with
      | [] => [[c]]
      | h :: t => (c :: h) :: t

/-- Drop leading and trailing spaces. -/
def trimSpaces (l : List Char) : List Char :=
  ((l.dropWhile (fun c => c == ' ')).reverse.dropWhile (fun c => c == ' ')).reverse

/-- Split a character list at the first `=`. -/
def splitEq : List Char → List Char × List Char
  | [] => ([], [])
  | c :: cs =>
    if c == '=' then ([], cs)
    else
      let r := splitEq cs
      (c :: r.1, r.2)

/-- Value of a non-empty string of decimal digits. -/
def digitsVal (l : List Char) : Option Nat :=
  if l.isEmpty then none
  else
    l.foldl
      (fun acc c =>
        match acc with
        | none => none
        | some a => if c.isDigit then some (a * 10 + (c.toNat - 48)) else none)
      (some 0)

/-- Parse a `"0=Choice, 1=AnotherChoice"` unit string (the dropdown format
described in param_prj.h:22-27) into its value/name pairs. -/
def parseEnumPairs (s : String) : List (Nat × String) :=
  (splitByComma s.toList).filterMap fun ent =>
    let ent1 := trimSpaces ent
    let lr := splitEq ent1
    (digitsVal lr.1).map fun n => (n, String.mk lr.2)

/-- One row of the `PARAM_LIST` table (param_prj.h:52-125): category, name,
unit, min, max, default and the immutable numeric id.  Bounds and defaults are
rationals (the table has the fractional bound 0.1 on `VX1kWhResetDist`). -/
structure ParamEntry where
  category : String
  name : String
  unit : String
  minVal : Rat
  maxVal : Rat
  defVal : Rat
  id : Nat
deriving DecidableEq

/-- Category strings (param_prj.h:241-251). -/
def CAT_TEST : String := "Testing"
def CAT_BMS : String := "BMS"
def CAT_SENS : String := "Sensor setup"
def CAT_COMM : String := "Communication"
def CAT_BAT : String := "Battery Characteristics"
def CAT_VX1 : String := "VX1 general settings"
def CAT_VX1_MC : String := "VX1 Motor Controller (only on master node)"
def CAT_VX1_CHR : String := "VX1 Charger settings (only on master node)"
def CAT_VX1_CAN : String := "VX1 CAN settings (most on master node)"

/-- Enum unit strings (param_prj.h:236-240, 254). -/
def OFFON : String := "0=Off, 1=On"
def BALMODE : String := "0=Off, 1=Additive, 2=Dissipative, 3=Both"
def IDCMODES : String := "0=Off, 1=AdcSingle, 2=AdcDifferential, 3=IsaCan"
def TEMPSNS : String := "0=None, 1=Chan1, 2=Chan2, 3=Both"
def VX1MODE : String := "0=Off, 1=On"

set_option maxHeartbeats 2000000 in
/-- The `PARAM_ENTRY`/`TESTP_ENTRY` rows of `PARAM_LIST` (param_prj.h:52-125),
i.e. every parameter that carries `[min,max]` bounds.  The `VALUE_ENTRY` rows
(spot values) carry no bounds and are not part of this table. -/
def PARAM_LIST : List ParamEntry :=
  [⟨CAT_BMS, "gain", "mV/dig", 1, 1000, 587, 3⟩,
   ⟨CAT_BMS, "correction0", "ppm", -10000, 10000, 1800, 14⟩,
   ⟨CAT_BMS, "correction1", "ppm", -10000, 10000, 3700, 15⟩,
   ⟨CAT_BMS, "correction15", "ppm", -10000, 10000, 1000, 16⟩,
   ⟨CAT_BMS, "numchan", "", 1, 16, 12, 4⟩,
   ⟨CAT_BMS, "balmode", BALMODE, 0, 3, 0, 5⟩,
   ⟨CAT_BMS, "ubalance", "mV", 0, 4500, 4500, 30⟩,
   ⟨CAT_BMS, "idlewait", "s", 0, 100000, 60, 12⟩,
   ⟨CAT_BMS, "sleeptimeout", "h", 0, 99, 2, 56⟩,
   ⟨CAT_BMS, "idlecurrent", "mA", 0, 9999, 800, 57⟩,
   ⟨CAT_BAT, "dischargemax", "A", 1, 2047, 200, 32⟩,
   ⟨CAT_BAT, "nomcap", "Ah", 0, 1000, 100, 9⟩,
   ⟨CAT_BAT, "icc1", "A", 1, 2000, 70, 43⟩,
   ⟨CAT_BAT, "icc2", "A", 1, 2000, 50, 44⟩,
   ⟨CAT_BAT, "icc3", "A", 1, 2000, 20, 45⟩,
   ⟨CAT_BAT, "ucv1", "mV", 3000, 4500, 3900, 46⟩,
   ⟨CAT_BAT, "ucv2", "mV", 3000, 4500, 4000, 47⟩,
   ⟨CAT_BAT, "ucellmax", "mV", 1000, 4500, 4200, 29⟩,
   ⟨CAT_BAT, "ucellmin", "mV", 1000, 4500, 3300, 28⟩,
   ⟨CAT_BAT, "ucell0soc", "mV", 2000, 4500, 3300, 17⟩,
   ⟨CAT_BAT, "ucell10soc", "mV", 2000, 4500, 3400, 18⟩,
   ⟨CAT_BAT, "ucell20soc", "mV", 2000, 4500, 3450, 19⟩,
   ⟨CAT_BAT, "ucell30soc", "mV", 2000, 4500, 3500, 20⟩,
   ⟨CAT_BAT, "ucell40soc", "mV", 2000, 4500, 3560, 21⟩,
   ⟨CAT_BAT, "ucell50soc", "mV", 2000, 4500, 3600, 22⟩,
   ⟨CAT_BAT, "ucell60soc", "mV", 2000, 4500, 3700, 23⟩,
   ⟨CAT_BAT, "ucell70soc", "mV", 2000, 4500, 3800, 24⟩,
   ⟨CAT_BAT, "ucell80soc", "mV", 2000, 4500, 4000, 25⟩,
   ⟨CAT_BAT, "ucell90soc", "mV", 2000, 4500, 4100, 26⟩,
   ⟨CAT_BAT, "ucell100soc", "mV", 2000, 4500, 4200, 27⟩,
   ⟨CAT_BAT, "sohpreset", "%", 10, 100, 100, 53⟩,
   ⟨CAT_SENS, "idcgain", "dig/A", -1000, 1000, 10, 6⟩,
   ⟨CAT_SENS, "idcofs", "dig", -4095, 4095, 0, 7⟩,
   ⟨CAT_SENS, "idcmode", IDCMODES, 0, 3, 0, 8⟩,
   ⟨CAT_SENS, "tempsns", TEMPSNS, 0, 3, 0, 52⟩,
   ⟨CAT_SENS, "tempres", "Ohm", 10, 500000, 10000, 50⟩,
   ⟨CAT_SENS, "tempbeta", "", 1, 100000, 3900, 51⟩,
   ⟨CAT_COMM, "pdobase", "", 0, 2047, 500, 10⟩,
   ⟨CAT_COMM, "sdobase", "", 0, 63, 10, 11⟩,
   ⟨CAT_TEST, "enable", OFFON, 0, 1, 1, 48⟩,
   ⟨CAT_TEST, "testchan", "", -1, 15, -1, 49⟩,
   ⟨CAT_TEST, "testbalance", BALMODE, 0, 2, 0, 54⟩,
   ⟨CAT_VX1, "VX1mode", VX1MODE, 0, 1, 1, 101⟩,
   ⟨CAT_VX1_MC, "VX1drvCurr", "A", 30, 230, 180, 110⟩,
   ⟨CAT_VX1_MC, "VX1regenCurr", "A", 0, 100, 100, 111⟩,
   ⟨CAT_VX1_MC, "VX1spdLim", "km/h", 70, 122, 122, 113⟩,
   ⟨CAT_VX1_MC, "VX1rpmLim", "RPM", 5000, 6050, 6050, 112⟩,
   ⟨CAT_VX1_MC, "VX1regenMaxU", "V", 0, 160, 146, 120⟩,
   ⟨CAT_VX1_MC, "VX1regenMaxI", "A", 0, 160, 100, 121⟩,
   ⟨CAT_VX1_CHR, "VX1chrCellNo", "cells", 30, 42, 36, 130⟩,
   ⟨CAT_VX1_CHR, "VX1chrCellMaxV", "mV", 3800, 4200, 4150, 131⟩,
   ⟨CAT_VX1_CHR, "VX1chrBattCap", "Ah", 30, 200, 157, 132⟩,
   ⟨CAT_VX1_CAN, "VX1enCanMsg", "0=Off, 1=On", 0, 1, 1, 140⟩,
   ⟨CAT_VX1_CAN, "VX1BootLCDMsg", "0=Off, 1=On", 0, 1, 1, 148⟩,
   ⟨CAT_VX1_CAN, "VX1enBootstats", "0=Off, 1=On", 0, 1, 1, 149⟩,
   ⟨CAT_VX1_CAN, "VX1msgInterval", "ms", 50, 1000, 100, 150⟩,
   ⟨CAT_VX1_CAN, "VX1paramMsgCount", "times", 1, 10, 2, 151⟩,
   ⟨CAT_VX1_CAN, "VX1LCDClockStats", "0=Off, 1=Always, 2=Idle", 0, 2, 1, 152⟩,
   ⟨CAT_VX1_CAN, "VX1LCDClockStatVal",
    "0=soc, 1=uavg, 2=udelta, 3=tempmax, 4=power, 5=idcavg, 6=kWhper100km",
    0, 6, 2, 153⟩,
   ⟨CAT_VX1_CAN, "VX1ErrWarn", "0=Off, 1=On", 0, 1, 1, 154⟩,
   ⟨CAT_VX1_CAN, "VX1TempWarn", "0=Off, 1=On", 0, 1, 1, 155⟩,
   ⟨CAT_VX1_CAN, "VX1TempWarnTest", "0=Off, 1=On", 0, 1, 0, 157⟩,
   ⟨CAT_VX1_CAN, "VX1uDeltaWarn", "0=Off, 1=On", 0, 1, 1, 158⟩,
   ⟨CAT_VX1_CAN, "VX1uDeltaWarnTresh", "mV", 2, 500, 150, 159⟩,
   ⟨CAT_VX1_CAN, "VX1uDeltaWarnTest", "0=Off, 1=On", 0, 1, 0, 160⟩,
   ⟨CAT_VX1_CAN, "VX1SendConfigMsg",
    "0=off, 2=regVX1drvCurr, 3=VX1regenMaxU 4=VX1regenMaxI, 5=VX1chrCellNo, 6=VX1chrCellMaxV, 7=VX1chrBattCap",
    0, 8, 0, 161⟩,
   ⟨CAT_VX1_CAN, "VX1EmulateBMSmsg", "0=off, 1=on", 0, 1, 1, 162⟩,
   ⟨CAT_VX1_CAN, "VX1kWhResetDist", "km", 0.1, 20, 5, 163⟩,
   ⟨CAT_VX1_CAN, "VX1TempWarnHiPoint", "°C", 40, 80, 55, 164⟩,
   ⟨CAT_VX1_CAN, "VX1TempWarnLoPoint", "°C", 40, 80, 55, 165⟩,
   ⟨CAT_VX1_CAN, "VX1FanDuty", "%", 0, 100, 50, 166⟩,
   ⟨CAT_VX1_CAN, "VX1mockTemp", "°C", -20, 55, 24, 167⟩,
   ⟨CAT_VX1_CAN, "VX1ModuleNumber", "1-15", 1, 15, 1, 168⟩]

/-- clamp to `[lo, hi]`. -/
def clampRat (v lo hi : Rat) : Rat := max lo (min hi v)

/-- Modelled from the spec: the Parameter Store implementation
(`Param::Set`/`Param::Get` of libopeninv's params.cpp) is not among the
excerpted sources; per spec §4.3 the store is an id-indexed table of values and
`Set(id, value)` clamps to the `[min,max]` bounds of the static parameter
table.  A store maps each numeric id to its current value. -/
def ParamStore : Type := Nat → Rat

/-- Modelled from the spec: `Param::Set(id, v)` — clamp `v` to the bounds of
the table row with that id and store it; an id without a table row stores
nothing.  No error is raised or propagated. -/
def paramSet (store : ParamStore) (id : Nat) (v : Rat) : ParamStore :=
  match PARAM_LIST.find? (fun p => p.id == id) with
  | some p => fun j => if j = id then clampRat v p.minVal p.maxVal else store j
  | none => store

/-- Modelled from the spec: `Param::Get(id)` — the stored value. -/
def paramGet (store : ParamStore) (id : Nat) : Rat := store id

/-- A context in which all VX1 gates are open: CAN hardware present, VX1 mode
on, CAN messages / error warnings / boot display enabled, default message
interval, uptime 0, module address 10. -/
def sampleEnv : Env :=
  { canHw := true
    VX1mode := 1
    VX1enCanMsg := 1
    VX1ErrWarn := 1
    VX1BootLCDMsg := 1
    VX1enBootstats := 1
    VX1msgInterval := 100
    uptime := 0
    modaddr := 10 }

/-- C2: for every call to `IsMaster`, a non-null `BmsFsm` pointer makes the
result exactly that instance's `IsFirst()` value, and a null pointer makes the
result true exactly when the `modaddr` parameter equals 10. -/
theorem C2_isMaster_spec (e : Env) (b : Bool) :
    isMaster e (some b) = b ∧ (isMaster e none = true ↔ e.modaddr = 10) := by
  refine ⟨rfl, ?_⟩
  simp [isMaster]

/-- C3: the operating-mode parameter's unit string `OPMODES` encodes exactly
the order Boot=0, GetAddr=1, SetAddr=2, ReqInfo=3, RecvInfo=4, Init=5,
SelfTest=6, Run=7, Idle=8, Error=9; in particular Run is 7, Idle is 8 and
Error is 9. -/
theorem C3_opmode_enumeration :
    parseEnumPairs OPMODES =
      [(0, "Boot"), (1, "GetAddr"), (2, "SetAddr"), (3, "ReqInfo"),
       (4, "RecvInfo"), (5, "Init"), (6, "SelfTest"), (7, "Run"),
       (8, "Idle"), (9, "Error")] ∧
    (parseEnumPairs OPMODES).lookup 7 = some "Run" ∧
    (parseEnumPairs OPMODES).lookup 8 = some "Idle" ∧
    (parseEnumPairs OPMODES).lookup 9 = some "Error" := by
  refine ⟨?_, ?_, ?_, ?_⟩ <;> rfl

/-- C8: `GetCanBaudRate()` returns `Baud250` exactly when the `VX1mode`
parameter equals 1 and `Baud500` otherwise, and `IsEnabled()` is true exactly
when `VX1mode` equals 1. -/
theorem C8_baudrate_spec (e : Env) :
    (getCanBaudRate e = Baudrate.Baud250 ↔ e.VX1mode = 1) ∧
    (getCanBaudRate e = Baudrate.Baud500 ↔ ¬e.VX1mode = 1) ∧
    (isEnabled e = true ↔ e.VX1mode = 1) := by
  by_cases h : e.VX1mode = 1 <;>
    simp [getCanBaudRate, isEnabled, h]

/-- C9: after `SetOdometerMessage(message)` the stored buffer is the first
`min(strlen(message), 6)` input bytes, space-padded to 6 characters, with a
NUL at index 6 (total length 7); bytes beyond the sixth are discarded and
`displayActive` is set. -/
theorem C9_setOdometerMessage_spec (st : VX1State) (message : List Nat) :
    (setOdometerMessage st message).odometerMessage =
      message.take (min (strlenC message) 6) ++
        List.replicate (6 - min (strlenC message) 6) 32 ++ [0] ∧
    (setOdometerMessage st message).odometerMessage.length = 7 ∧
    (setOdometerMessage st message).odometerMessage.drop 6 = [0] ∧
    (setOdometerMessage st message).displayActive = true := by
  have hlen6 : min (strlenC message) 6 ≤ 6 := Nat.min_le_right _ _
  have hlenm : min (strlenC message) 6 ≤ message.length :=
    le_trans (Nat.min_le_left _ _) ((List.takeWhile_sublist _).length_le)
  have hbuf : (setOdometerMessage st message).odometerMessage =
      message.take (min (strlenC message) 6) ++
        List.replicate (6 - min (strlenC message) 6) 32 ++ [0] := by
    simp only [setOdometerMessage, List.drop_replicate]
  have htake : (message.take (min (strlenC message) 6)).length =
      min (strlenC message) 6 := by
    simp [List.length_take, Nat.min_eq_left hlenm]
  refine ⟨hbuf, ?_, ?_, rfl⟩
  · rw [hbuf]
    simp [htake]
    omega
  · rw [hbuf, List.drop_append_eq_append_drop, List.drop_append_eq_append_drop]
    have e1 : (message.take (min (strlenC message) 6)).drop 6 = [] :=
      List.drop_eq_nil_of_le (by rw [htake]; omega)
    have h2 : min (strlenC message) 6 + (6 - min (strlenC message) 6) = 6 := by
      omega
    simp [e1, htake, List.length_append, List.length_replicate, h2,
      Nat.sub_self, List.drop_replicate]

/-- The numeric ids in `PARAM_LIST` are pairwise distinct: searching the table
for a row's id finds exactly that row. -/
theorem paramList_find_self :
    ∀ p ∈ PARAM_LIST, PARAM_LIST.find? (fun q => q.id == p.id) = some p := by
  intro p hp
  fin_cases hp <;> rfl

/-- C4: for every parameter id with bounds `[min,max]` in the static table,
`Set(id, v)` followed by `Get(id)` returns `clamp(v, min, max)`; out-of-range
values are clamped at the store boundary, never turned into an error. -/
theorem C4_set_get_clamp (store : ParamStore) (p : ParamEntry) (v : Rat)
    (hp : p ∈ PARAM_LIST) :
    paramGet (paramSet store p.id v) p.id = clampRat v p.minVal p.maxVal := by
  have hf := paramList_find_self p hp
  simp [paramSet, paramGet, hf]

/-- Witness for C4 at the `gain` row (id 3, bounds [1,1000]): setting 2000
reads back 1000. -/
theorem C4_set_get_clamp_witness :
    (⟨CAT_BMS, "gain", "mV/dig", 1, 1000, 587, 3⟩ : ParamEntry) ∈ PARAM_LIST ∧
    paramGet (paramSet (fun _ => 0) 3 2000) 3 = 1000 :=
  ⟨by decide,
   (C4_set_get_clamp (fun _ => 0) ⟨CAT_BMS, "gain", "mV/dig", 1, 1000, 587, 3⟩
       2000 (by decide)).trans (by decide)⟩

/-- The OFF=0 / ON=1 / BLINKING=2 value of one 2-bit telltale field. -/
def telltaleFieldEncoding : TelltaleState → Nat
  | TelltaleState.OFF => 0
  | TelltaleState.ON => 1
  | TelltaleState.BLINKING => 2

/-- Byte 0 of the telltale frame decomposes into the three 2-bit fields with
the OFF/ON/BLINKING encoding, bits 7:6 zero. -/
theorem telltaleData0_fields (w t b : TelltaleState) :
    telltaleData0 w t b % 4 = telltaleFieldEncoding w ∧
    telltaleData0 w t b / 4 % 4 = telltaleFieldEncoding b ∧
    telltaleData0 w t b / 16 % 4 = telltaleFieldEncoding t ∧
    telltaleData0 w t b / 64 = 0 := by
  cases w <;> cases t <;> cases b <;> decide

/-- Any frame `SendTelltaleControl` emits has the fixed identifier 0x18FECA4C
and the payload built from the current telltale states. -/
theorem sendTelltaleControl_frame_eq (st : VX1State) (e : Env)
    (masterOnly : Bool) (f : Frame)
    (h : (sendTelltaleControl st e masterOnly).2.1 = some f) :
    f = { id := 0x18FECA4C,
          data := [telltaleData0 st.wrenchState st.tempState st.batteryState,
                   0, 0, 0,
                   if st.batteryState = TelltaleState.BLINKING then 0x33 else 0,
                   0,
                   if st.batteryState = TelltaleState.BLINKING then 0x32 else 0,
                   0] } := by
  simp only [sendTelltaleControl] at h
  split at h
  · simp at h
  · split at h
    · simp at h
    · split at h
      · simp at h
      · simp only [Option.some.injEq] at h
        exact h.symm

/-- C6: in every telltale-control frame built by `SendTelltaleControl`,
byte 0 carries the wrench state in bits 1:0, the battery state in bits 3:2 and
the temperature state in bits 5:4, each field OFF=0 / ON=1 / BLINKING=2, with
bits 7:6 zero. -/
theorem C6_telltale_byte0 (st : VX1State) (e : Env) (masterOnly : Bool)
    (f : Frame) (h : (sendTelltaleControl st e masterOnly).2.1 = some f) :
    f.data.getD 0 0 % 4 = telltaleFieldEncoding st.wrenchState ∧
    f.data.getD 0 0 / 4 % 4 = telltaleFieldEncoding st.batteryState ∧
    f.data.getD 0 0 / 16 % 4 = telltaleFieldEncoding st.tempState ∧
    f.data.getD 0 0 / 64 = 0 := by
  have hf := sendTelltaleControl_frame_eq st e masterOnly f h
  subst hf
  exact telltaleData0_fields st.wrenchState st.tempState st.batteryState

/-- Witness for C6: with the initial statics (all telltales OFF) and open
gates, the emitted frame's byte 0 decodes to OFF in every field. -/
theorem C6_telltale_byte0_witness :
    ({ id := 0x18FECA4C, data := [0, 0, 0, 0, 0, 0, 0, 0] } : Frame).data.getD 0 0 % 4 =
      telltaleFieldEncoding initialVX1State.wrenchState :=
  (C6_telltale_byte0 initialVX1State sampleEnv false
    { id := 0x18FECA4C, data := [0, 0, 0, 0, 0, 0, 0, 0] } (by decide)).1

/-- C1 counterexample: with the initial statics and all gates open,
`SendTelltaleControl` emits a frame whose identifier is the constant
0x18FECA4C, and its priority field (bits 28:26) is 6, not 3. -/
theorem C1_priority_counterexample :
    (sendTelltaleControl initialVX1State sampleEnv false).2.1 =
      some { id := 0x18FECA4C, data := [0, 0, 0, 0, 0, 0, 0, 0] } ∧
    j1939Priority 0x18FECA4C = 6 ∧ ¬j1939Priority 0x18FECA4C = 3 := by
  refine ⟨by decide, by decide, by decide⟩

/-- C1 amended: the odometer, clock and the three BMS PGN frames all carry
priority 3 in bits 28:26 of their `(3 << 26) | (PGN << 8) | SA` identifiers,
but the telltale frame uses the fixed identifier 0x18FECA4C whose priority
field is 6. -/
theorem C1_priority_amended :
    (∀ sa, sa < 256 →
      j1939Priority (odometerJ1939Id sa) = 3 ∧
      j1939Priority (clockJ1939Id sa) = 3) ∧
    j1939Priority bmsPgn0xFEF2_j1939Id = 3 ∧
    j1939Priority bmsPgn0xFEF3_j1939Id = 3 ∧
    j1939Priority bmsPgn0xFEF4_j1939Id = 3 ∧
    (∀ st e masterOnly f,
      (sendTelltaleControl st e masterOnly).2.1 = some f →
      j1939Priority f.id = 6) := by
  refine ⟨by decide, by decide, by decide, by decide, ?_⟩
  intro st e masterOnly f h
  have hf := sendTelltaleControl_frame_eq st e masterOnly f h
  subst hf
  exact (by decide : j1939Priority 0x18FECA4C = 6)

/-- Witness for C1 (amended): priority 3 at source address 0x80 for the
odometer frame, priority 6 for the telltale frame. -/
theorem C1_priority_amended_witness :
    j1939Priority (odometerJ1939Id 0x80) = 3 ∧ j1939Priority 0x18FECA4C = 6 :=
  ⟨(C1_priority_amended.1 0x80 (by decide)).1,
   C1_priority_amended.2.2.2.2 initialVX1State sampleEnv false
     { id := 0x18FECA4C, data := [0, 0, 0, 0, 0, 0, 0, 0] } (by decide)⟩

/-- A frame is emitted by `SendTelltaleControl` only from its final branch:
the send time is recorded into `lastTelltaleUpdateTime` and the rate-limit
guard was false. -/
theorem sendTelltaleControl_emit (st : VX1State) (e : Env) (masterOnly : Bool)
    (f : Frame) (h : (sendTelltaleControl st e masterOnly).2.1 = some f) :
    sendTelltaleControl st e masterOnly =
      ({ st with lastTelltaleUpdateTime := u32 e.uptime }, some f, true) ∧
    ¬(st.lastTelltaleUpdateTime > 0 ∧
      u32sub (u32 e.uptime) st.lastTelltaleUpdateTime < 3000) := by
  revert h
  simp only [sendTelltaleControl]
  split
  · intro h; simp at h
  · split
    · intro h; simp at h
    · rename_i hc1 hc2
      split
      · intro h; simp at h
      · intro h
        simp only [Option.some.injEq] at h
        subst h
        refine ⟨rfl, ?_⟩
        simpa using hc2

/-- C10 amended: when a previous send time is recorded
(`lastTelltaleUpdateTime > 0`) and fewer than 3000 uptime units have elapsed,
`SendTelltaleControl` returns true without emitting a frame and without
modifying any state; and whenever it does emit a frame it records the current
uptime, the previous recorded send time (if armed, i.e. nonzero) lying at
least 3000 units back.  A frame sent while uptime reads 0 records 0 and so
does not arm the limiter — see the counterexample. -/
theorem C10_rate_limit_amended :
    (∀ st e masterOnly,
      isEnabled e = true → e.canHw = true → e.VX1enCanMsg = 1 →
      st.lastTelltaleUpdateTime > 0 →
      u32sub (u32 e.uptime) st.lastTelltaleUpdateTime < 3000 →
      sendTelltaleControl st e masterOnly = (st, none, true)) ∧
    (∀ st e masterOnly f,
      (sendTelltaleControl st e masterOnly).2.1 = some f →
      (sendTelltaleControl st e masterOnly).1.lastTelltaleUpdateTime =
        u32 e.uptime ∧
      (st.lastTelltaleUpdateTime > 0 →
        3000 ≤ u32sub (u32 e.uptime) st.lastTelltaleUpdateTime)) := by
  constructor
  · intro st e masterOnly h1 h2 h3 h4 h5
    simp [sendTelltaleControl, h1, h2, h3, h4, h5]
  · intro st e masterOnly f h
    obtain ⟨heq, hguard⟩ := sendTelltaleControl_emit st e masterOnly f h
    rw [heq]
    exact ⟨rfl, fun hpos =>
      Nat.le_of_not_lt (fun hlt => hguard ⟨hpos, hlt⟩)⟩

/-- Witness for C10 (amended): with a send recorded at uptime 5 and uptime now
100, the call is a pure no-op returning true. -/
theorem C10_rate_limit_amended_witness :
    sendTelltaleControl { initialVX1State with lastTelltaleUpdateTime := 5 }
        { sampleEnv with uptime := 100 } false =
      ({ initialVX1State with lastTelltaleUpdateTime := 5 }, none, true) :=
  C10_rate_limit_amended.1
    { initialVX1State with lastTelltaleUpdateTime := 5 }
    { sampleEnv with uptime := 100 } false
    (by decide) (by decide) (by decide) (by decide) (by decide)

/-- C10 counterexample: a first frame sent while uptime reads 0 leaves
`lastTelltaleUpdateTime` at 0, so a second frame is emitted only 1 uptime
unit later — two telltale frames less than 3000 units apart. -/
theorem C10_rate_limit_counterexample :
    ((sendTelltaleControl initialVX1State sampleEnv false).2.1).isSome = true ∧
    ((sendTelltaleControl (sendTelltaleControl initialVX1State sampleEnv false).1
        { sampleEnv with uptime := 1 } false).2.1).isSome = true ∧
    ({ sampleEnv with uptime := 1 }).uptime - sampleEnv.uptime < 3000 := by
  refine ⟨by decide, by decide, by decide⟩

/-- C5: the claim names the intended format — node id then the error's short
code, with `ERR_CELL_POLARITY ↦ "CPOL"` — and the table indeed maps
`ERR_CELL_POLARITY` to "CPOL", but `sprintf("%2d %s", 5, "CPOL")` is 7
characters while the display buffer keeps 6, so `ErrorReportingTask` sends
" 5 CPO": the final character of the short code is lost (and in the C code
the `sprintf` writes 8 bytes into the 7-byte `errorMessageText`). -/
theorem C5_cpol_truncated :
    lookupShortCode ErrorMessageNum.ERR_CELL_POLARITY = "CPOL" ∧
    errorMessageText 5 "CPOL" = strBytes " 5 CPOL" ∧
    (errorReportingTask initialVX1State { sampleEnv with modaddr := 5 }
        ErrorMessageNum.ERR_CELL_POLARITY).1.odometerMessage =
      strBytes " 5 CPO" ++ [0] ∧
    ¬(errorReportingTask initialVX1State { sampleEnv with modaddr := 5 }
        ErrorMessageNum.ERR_CELL_POLARITY).1.odometerMessage =
      strBytes " 5 CPOL" ++ [0] := by
  refine ⟨rfl, by decide, by decide, by decide⟩

/-- In `BOOT_DISPLAY_IDLE` an invocation of `BootDisplayTask` is a complete
no-op: no frame is sent and no state (boot-display or VX1 statics) changes. -/
theorem bootDisplayTask_idle (fmt : BootDisplayState → Env → List Nat)
    (e : Env) (s : BootState)
    (h : s.bootDisplayState = BootDisplayState.BOOT_DISPLAY_IDLE) :
    bootDisplayTask fmt e s = (s, []) := by
  simp [bootDisplayTask, h]

/-- Iterating from an idle boot-display state stays exactly there. -/
theorem bootDisplayStepN_idle (fmt : BootDisplayState → Env → List Nat)
    (e : Env) (n : Nat) (s : BootState)
    (h : s.bootDisplayState = BootDisplayState.BOOT_DISPLAY_IDLE) :
    bootDisplayStepN fmt e n s = s := by
  induction n generalizing s with
  | zero => rfl
  | succ m ih =>
    show bootDisplayStepN fmt e m (bootDisplayTask fmt e s).1 = s
    rw [bootDisplayTask_idle fmt e s h]
    exact ih s h

/-- In `BOOT_DISPLAY_DONE` with timer at most 20, one invocation stays in
`BOOT_DISPLAY_DONE` and increments the timer. -/
theorem bootDisplayTask_done_small (fmt : BootDisplayState → Env → List Nat)
    (e : Env) (s : BootState) (hcan : e.canHw = true)
    (hen : isEnabled e = true) (hmsg : e.VX1enCanMsg = 1)
    (h : s.bootDisplayState = BootDisplayState.BOOT_DISPLAY_DONE)
    (ht : s.bootDisplayTimer ≤ 20) :
    (bootDisplayTask fmt e s).1.bootDisplayState =
      BootDisplayState.BOOT_DISPLAY_DONE ∧
    (bootDisplayTask fmt e s).1.bootDisplayTimer = s.bootDisplayTimer + 1 := by
  rcases Nat.lt_or_ge s.bootDisplayTimer 20 with h20 | h20
  · constructor <;> simp [bootDisplayTask, h, hcan, hen, hmsg, h20]
  · have h20e : s.bootDisplayTimer = 20 := Nat.le_antisymm ht h20
    constructor <;> simp [bootDisplayTask, h, hcan, hen, hmsg, h20e]

/-- In `BOOT_DISPLAY_DONE` with timer beyond 20, one invocation returns the
sentinel `BOOT_DISPLAY_IDLE`. -/
theorem bootDisplayTask_done_big (fmt : BootDisplayState → Env → List Nat)
    (e : Env) (s : BootState) (hcan : e.canHw = true)
    (hen : isEnabled e = true) (hmsg : e.VX1enCanMsg = 1)
    (h : s.bootDisplayState = BootDisplayState.BOOT_DISPLAY_DONE)
    (ht : 21 ≤ s.bootDisplayTimer) :
    (bootDisplayTask fmt e s).1.bootDisplayState =
      BootDisplayState.BOOT_DISPLAY_IDLE := by
  have hn1 : ¬s.bootDisplayTimer < 20 := by omega
  have hn2 : ¬s.bootDisplayTimer = 20 := by omega
  simp [bootDisplayTask, h, hcan, hen, hmsg, hn1, hn2]

/-- From `BOOT_DISPLAY_DONE`, once enough invocations have passed that the
timer has exceeded 20, the state is the idle sentinel. -/
theorem bootDisplay_done_reaches_idle (fmt : BootDisplayState → Env → List Nat)
    (e : Env) (hcan : e.canHw = true) (hen : isEnabled e = true)
    (hmsg : e.VX1enCanMsg = 1) :
    ∀ (j : Nat) (s : BootState),
      s.bootDisplayState = BootDisplayState.BOOT_DISPLAY_DONE →
      21 ≤ s.bootDisplayTimer + j →
      (bootDisplayStepN fmt e (j + 1) s).bootDisplayState =
        BootDisplayState.BOOT_DISPLAY_IDLE := by
  intro j
  induction j with
  | zero =>
    intro s h hj
    have hgt := bootDisplayTask_done_big fmt e s hcan hen hmsg h (by omega)
    show (bootDisplayStepN fmt e 0 (bootDisplayTask fmt e s).1).bootDisplayState =
      BootDisplayState.BOOT_DISPLAY_IDLE
    exact hgt
  | succ n ih =>
    intro s h hj
    rcases Nat.lt_or_ge s.bootDisplayTimer 21 with hlt | hge
    · have hs := bootDisplayTask_done_small fmt e s hcan hen hmsg h (by omega)
      show (bootDisplayStepN fmt e (n + 1) (bootDisplayTask fmt e s).1).bootDisplayState =
        BootDisplayState.BOOT_DISPLAY_IDLE
      exact ih _ hs.1 (by rw [hs.2]; omega)
    · have hgt := bootDisplayTask_done_big fmt e s hcan hen hmsg h hge
      show (bootDisplayStepN fmt e (n + 1) (bootDisplayTask fmt e s).1).bootDisplayState =
        BootDisplayState.BOOT_DISPLAY_IDLE
      rw [bootDisplayStepN_idle fmt e (n + 1) _ hgt]
      exact hgt

/-- C7: the boot display task self-gates through an idle sentinel rather than
being removed from the schedule: in `BOOT_DISPLAY_IDLE` an invocation sends no
frame and changes no state; from `BOOT_DISPLAY_DONE` (with the task's gates
open) 22 further invocations return the state to `BOOT_DISPLAY_IDLE`; every
invocation from the idle sentinel remains a no-op; and
`DisplayBootWelcomeScreen` (under its own gates) re-initializes the sequence
to `BOOT_DISPLAY_WAIT`. -/
theorem C7_boot_display_self_gates (fmt : BootDisplayState → Env → List Nat)
    (e : Env) (s : BootState) :
    (s.bootDisplayState = BootDisplayState.BOOT_DISPLAY_IDLE →
      bootDisplayTask fmt e s = (s, [])) ∧
    (e.canHw = true → isEnabled e = true → e.VX1enCanMsg = 1 →
      s.bootDisplayState = BootDisplayState.BOOT_DISPLAY_DONE →
      (bootDisplayStepN fmt e 22 s).bootDisplayState =
        BootDisplayState.BOOT_DISPLAY_IDLE) ∧
    (∀ (n : Nat) (s' : BootState),
      s'.bootDisplayState = BootDisplayState.BOOT_DISPLAY_IDLE →
      bootDisplayStepN fmt e n s' = s') ∧
    (∀ (scheduler : Bool) (bmsFsmIsFirst : Option Bool),
      isEnabled e = true → e.VX1BootLCDMsg = 1 → e.VX1enCanMsg = 1 →
      isMaster e bmsFsmIsFirst = true → e.canHw = true → scheduler = true →
      (displayBootWelcomeScreen e scheduler bmsFsmIsFirst s).bootDisplayState =
        BootDisplayState.BOOT_DISPLAY_WAIT) := by
  refine ⟨bootDisplayTask_idle fmt e s, ?_, ?_, ?_⟩
  · intro hcan hen hmsg h
    exact bootDisplay_done_reaches_idle fmt e hcan hen hmsg 21 s h (by omega)
  · intro n s' h
    exact bootDisplayStepN_idle fmt e n s' h
  · intro scheduler bmsFsmIsFirst h1 h2 h3 h4 h5 h6
    simp [displayBootWelcomeScreen, h1, h2, h3, h4, h5, h6]

/-- Witness for C7: a no-op from the idle sentinel, and 22 invocations from
`BOOT_DISPLAY_DONE` landing on the idle sentinel, at concrete inputs. -/
theorem C7_boot_display_self_gates_witness :
    bootDisplayTask (fun _ _ => []) sampleEnv
        { bootDisplayState := BootDisplayState.BOOT_DISPLAY_IDLE,
          bootDisplayTimer := 3, vx1 := initialVX1State } =
      ({ bootDisplayState := BootDisplayState.BOOT_DISPLAY_IDLE,
         bootDisplayTimer := 3, vx1 := initialVX1State }, []) ∧
    (bootDisplayStepN (fun _ _ => []) sampleEnv 22
        { bootDisplayState := BootDisplayState.BOOT_DISPLAY_DONE,
          bootDisplayTimer := 0, vx1 := initialVX1State }).bootDisplayState =
      BootDisplayState.BOOT_DISPLAY_IDLE :=
  ⟨(C7_boot_display_self_gates (fun _ _ => []) sampleEnv
      { bootDisplayState := BootDisplayState.BOOT_DISPLAY_IDLE,
        bootDisplayTimer := 3, vx1 := initialVX1State }).1 rfl,
   (C7_boot_display_self_gates (fun _ _ => []) sampleEnv
      { bootDisplayState := BootDisplayState.BOOT_DISPLAY_DONE,
        bootDisplayTimer := 0, vx1 := initialVX1State }).2.1 rfl rfl rfl rfl⟩
